import Mathlib

/-!
Verification of the diff-sampler packet demultiplexer and differential
sampling loop (src/examples/diff-sampler/diff-sampler.cc).

Modelling conventions:
* A captured frame is the declared on-wire length (pkthdr->len) together
  with the byte buffer the packet pointer gives access to; bytes past the
  end of the modelled buffer read as 0.
* The C globals (the per-protocol counters) are modelled by explicit
  state passing: each function returns the increments it performs and the
  per-frame handler folds them into the running state. The counters never
  influence control flow in the source, so this is equivalent.
* assert(false), and the out-of-bounds histogram write (undefined
  behaviour), are modelled as Option.none.
* The while (processing) loop of get_payload is modelled with a fuel
  parameter; the fuel d.length + 3 is proved sufficient (see
  l4loop_class below, whose fuelOut case is False): an iteration that
  continues the loop strictly advances the offset, and once the offset is
  past the buffer the next protocol byte reads as 0, terminating the loop.
* The loop also records the ghost list of protocol numbers it dispatched
  on (the chain field), used to state the nested-tunnel claims; it does
  not influence any computed value.
-/

/-! Protocol constants, from net/ethernet.h and netinet/in.h. -/

def ETHERTYPE_IP : Nat := 0x0800
def ETHERTYPE_VLAN : Nat := 0x8100
def ETHERTYPE_IPV6 : Nat := 0x86DD

def IPPROTO_ICMP : Nat := 1
def IPPROTO_IPIP : Nat := 4
def IPPROTO_TCP : Nat := 6
def IPPROTO_UDP : Nat := 17
def IPPROTO_IPV6 : Nat := 41
def IPPROTO_FRAGMENT : Nat := 44
def IPPROTO_GRE : Nat := 47
def IPPROTO_ESP : Nat := 50
def IPPROTO_ICMPV6 : Nat := 58
def IPPROTO_PIM : Nat := 103

/-- A payload word, as in Vata2::Nfa::Word: a sequence of byte symbols. -/
abbrev Word := List Nat

/-- Byte i of the packet buffer; reads past the modelled buffer give 0. -/
def byteAt (d : List Nat) (i : Nat) : Nat := d.getD i 0

/-- A 16-bit big-endian field at byte offset i (ntohs of a u16 field). -/
def be16 (d : List Nat) (i : Nat) : Nat := 256 * byteAt d i + byteAt d (i + 1)

/-- The global counters of diff-sampler.cc (lines 40-59). -/
structure Counters where
  total_packets : Nat := 0
  payloaded_packets : Nat := 0
  vlan_packets : Nat := 0
  ipv4_packets : Nat := 0
  ipv6_packets : Nat := 0
  tcp_packets : Nat := 0
  udp_packets : Nat := 0
  ipip_packets : Nat := 0
  esp_packets : Nat := 0
  icmp_packets : Nat := 0
  gre_packets : Nat := 0
  icmp6_packets : Nat := 0
  v6_fragment_packets : Nat := 0
  ip6_in_ip4_packets : Nat := 0
  pim_packets : Nat := 0
  other_l3_packets : Nat := 0
  other_l4_packets : Nat := 0
  incons_packets : Nat := 0
  accepted_aut1 : Nat := 0
  accepted_aut2 : Nat := 0
  deriving Repr, DecidableEq

/-- Fieldwise sum of counter increments. -/
def Counters.add (a b : Counters) : Counters where
  total_packets := a.total_packets + b.total_packets
  payloaded_packets := a.payloaded_packets + b.payloaded_packets
  vlan_packets := a.vlan_packets + b.vlan_packets
  ipv4_packets := a.ipv4_packets + b.ipv4_packets
  ipv6_packets := a.ipv6_packets + b.ipv6_packets
  tcp_packets := a.tcp_packets + b.tcp_packets
  udp_packets := a.udp_packets + b.udp_packets
  ipip_packets := a.ipip_packets + b.ipip_packets
  esp_packets := a.esp_packets + b.esp_packets
  icmp_packets := a.icmp_packets + b.icmp_packets
  gre_packets := a.gre_packets + b.gre_packets
  icmp6_packets := a.icmp6_packets + b.icmp6_packets
  v6_fragment_packets := a.v6_fragment_packets + b.v6_fragment_packets
  ip6_in_ip4_packets := a.ip6_in_ip4_packets + b.ip6_in_ip4_packets
  pim_packets := a.pim_packets + b.pim_packets
  other_l3_packets := a.other_l3_packets + b.other_l3_packets
  other_l4_packets := a.other_l4_packets + b.other_l4_packets
  incons_packets := a.incons_packets + b.incons_packets
  accepted_aut1 := a.accepted_aut1 + b.accepted_aut1
  accepted_aut2 := a.accepted_aut2 + b.accepted_aut2

/-- A captured frame: pkthdr->len plus the bytes the packet pointer
points at. -/
structure Frame where
  len : Nat
  data : List Nat
  deriving Repr, DecidableEq

/-- The frame buffer as the code addresses it: bytes 0 .. len-1. -/
def wire (f : Frame) : List Nat := (List.range f.len).map (byteAt f.data)

/-- The Word built at line 314:
Word(packet + offset, packet + max(pkthdr->len, offset)). -/
def mkPayload (f : Frame) (off : Nat) : Word :=
  (List.range (Nat.max f.len off - off)).map (fun i => byteAt f.data (off + i))

/-- Outcome of the while (processing) transport loop. -/
inductive LoopOutcome where
  | fuelOut : LoopOutcome
  | abort : LoopOutcome
  | noPayload : LoopOutcome
  | payloadAt : Nat → LoopOutcome
  deriving Repr, DecidableEq

/-- Result of the transport loop: outcome, ghost protocol chain, counter
increments. -/
structure LoopRes where
  outcome : LoopOutcome
  chain : List Nat
  delta : Counters
  deriving Repr, DecidableEq

/-- Re-enter the loop after an IP-in-IP header (lines 242-255 minus the
assert): count the layer, record it in the ghost chain, and keep the
inner result. -/
def consIpip (r : LoopRes) : LoopRes :=
  { outcome := r.outcome, chain := IPPROTO_IPIP :: r.chain,
    delta := { r.delta with ipip_packets := r.delta.ipip_packets + 1 } }

/-- Re-enter the loop after an IPv6 fragment header (lines 279-288):
count the layer, record it in the ghost chain, keep the inner result. -/
def consFrag (r : LoopRes) : LoopRes :=
  { outcome := r.outcome, chain := IPPROTO_FRAGMENT :: r.chain,
    delta := { r.delta with
      v6_fragment_packets := r.delta.v6_fragment_packets + 1 } }

/-- The while (processing) loop of get_payload (lines 226-312), fueled.
abort models the assert(false) at line 246; payloadAt off means the loop
exited normally with the given offset, so line 314 slices the payload
there; noPayload models the early return Word() for GRE, PIM and
unrecognized protocols. -/
def l4loopF : Nat → List Nat → Nat → Nat → Bool → LoopRes
  | 0, _, _, _, _ => { outcome := .fuelOut, chain := [], delta := {} }
  | fuel + 1, d, offset, l4_proto, ip_in_ip =>
    if l4_proto = IPPROTO_TCP then
      { outcome := .payloadAt (offset + byteAt d (offset + 12) / 16 * 4),
        chain := [l4_proto], delta := { tcp_packets := 1 } }
    else if l4_proto = IPPROTO_UDP then
      { outcome := .payloadAt (offset + 8), chain := [l4_proto],
        delta := { udp_packets := 1 } }
    else if l4_proto = IPPROTO_IPIP then
      if ip_in_ip then
        { outcome := .abort, chain := [l4_proto],
          delta := { ipip_packets := 1 } }
      else
        consIpip (l4loopF fuel d (offset + 20) (byteAt d (offset + 9)) true)
    else if l4_proto = IPPROTO_ESP then
      { outcome := .payloadAt (offset + 8), chain := [l4_proto],
        delta := { esp_packets := 1 } }
    else if l4_proto = IPPROTO_ICMP then
      { outcome := .payloadAt (offset + 8), chain := [l4_proto],
        delta := { icmp_packets := 1 } }
    else if l4_proto = IPPROTO_GRE then
      { outcome := .noPayload, chain := [l4_proto],
        delta := { gre_packets := 1 } }
    else if l4_proto = IPPROTO_ICMPV6 then
      { outcome := .payloadAt (offset + 8), chain := [l4_proto],
        delta := { icmp6_packets := 1 } }
    else if l4_proto = IPPROTO_FRAGMENT then
      consFrag (l4loopF fuel d (offset + 8) (byteAt d offset) ip_in_ip)
    else if l4_proto = IPPROTO_IPV6 then
      -- the source (lines 289-296) updates l4_proto from the inner IPv6
      -- header here but does not set processing = true, so the while loop
      -- exits and the payload is sliced right after this IPv6 header
      { outcome := .payloadAt (offset + 40), chain := [l4_proto],
        delta := { ip6_in_ip4_packets := 1 } }
    else if l4_proto = IPPROTO_PIM then
      { outcome := .noPayload, chain := [l4_proto],
        delta := { pim_packets := 1 } }
    else
      { outcome := .noPayload, chain := [l4_proto],
        delta := { other_l4_packets := 1 } }

/-- Upper bound on the fuel the loop can consume from a given state. -/
def loopMeasure (d : List Nat) (offset l4_proto : Nat) : Nat :=
  if offset < d.length then d.length - offset + 3
  else if l4_proto = IPPROTO_IPIP ∨ l4_proto = IPPROTO_FRAGMENT then 2
  else 1

/-- The transport loop with sufficient fuel. -/
def l4loop (d : List Nat) (offset l4_proto : Nat) (ip_in_ip : Bool) : LoopRes :=
  l4loopF (d.length + 3) d offset l4_proto ip_in_ip

/-- Result of the whole demultiplexer; ok carries the payload, the slice
offset when the loop ended at a data-bearing layer (ghost), the ghost
protocol chain, and the counter increments. -/
inductive DemuxRes where
  | abort : List Nat → Counters → DemuxRes
  | ok : Word → Option Nat → List Nat → Counters → DemuxRes
  deriving Repr, DecidableEq

def DemuxRes.isAbort : DemuxRes → Bool
  | .abort _ _ => true
  | .ok _ _ _ _ => false

def DemuxRes.chainOf : DemuxRes → List Nat
  | .abort ch _ => ch
  | .ok _ _ ch _ => ch

/-- Turn a transport-loop result into the demultiplexer result (the
return paths of get_payload after the loop). The fuelOut case is
unreachable (l4loop_class below) and mapped to abort. -/
def finishLoop (f : Frame) (r : LoopRes) (dc : Counters) : DemuxRes :=
  match r.outcome with
  | .fuelOut => .abort r.chain (dc.add r.delta)
  | .abort => .abort r.chain (dc.add r.delta)
  | .noPayload => .ok [] none r.chain (dc.add r.delta)
  | .payloadAt off => .ok (mkPayload f off) (some off) r.chain (dc.add r.delta)

/-- The L3 dispatch of get_payload (lines 200-222). -/
def demuxL3 (f : Frame) (offset ether_type : Nat) (dc : Counters) : DemuxRes :=
  if ether_type = ETHERTYPE_IP then
    finishLoop f
      (l4loop f.data (offset + 20) (byteAt f.data (offset + 9)) false)
      { dc with ipv4_packets := dc.ipv4_packets + 1 }
  else if ether_type = ETHERTYPE_IPV6 then
    finishLoop f
      (l4loop f.data (offset + 40) (byteAt f.data (offset + 6)) false)
      { dc with ipv6_packets := dc.ipv6_packets + 1 }
  else
    .ok [] none [] { dc with other_l3_packets := dc.other_l3_packets + 1 }

/-- get_payload (lines 177-316) including the link layer: ether_type is
at byte 12; a VLAN tag moves the inner ether_type to byte 16 and the L3
header to offset 18 instead of 14. -/
def demux (f : Frame) : DemuxRes :=
  if be16 f.data 12 = ETHERTYPE_VLAN then
    demuxL3 f 18 (be16 f.data 16) { vlan_packets := 1 }
  else
    demuxL3 f 14 (be16 f.data 12) {}

/-- get_payload as the caller sees it: the payload word and the counter
increments, or none when the assert(false) at line 246 fires. -/
def get_payload (f : Frame) : Option (Word × Counters) :=
  match demux f with
  | .abort _ _ => none
  | .ok w _ _ dc => some (w, dc)

/-- Whether get_payload returns an empty payload for this frame. -/
def emptyPayload (f : Frame) : Bool :=
  match demux f with
  | .ok w _ _ _ => w.isEmpty
  | .abort _ _ => false

/-- Whether the loop ended at a data-bearing layer but the declared frame
length does not exceed the computed header offset (a truncated frame). -/
def truncatedFrame (f : Frame) : Bool :=
  match demux f with
  | .ok _ (some off) _ _ => if f.len ≤ off then true else false
  | _ => false

/-- Whether the two acceptors disagree on this frame's non-empty payload. -/
def disagrees (a1 a2 : Word → Bool) (f : Frame) : Bool :=
  match get_payload f with
  | some (w, _) => !w.isEmpty && (a1 w != a2 w)
  | none => false

/-- Whether an acceptor accepts this frame's non-empty payload. -/
def acceptsPayload (a : Word → Bool) (f : Frame) : Bool :=
  match get_payload f with
  | some (w, _) => !w.isEmpty && a w
  | none => false

/-- The sampler's mutable state: counters, the fixed-size packet-length
histogram (line 63), and the number of progress ticks printed. -/
structure SamplerState where
  cs : Counters
  packet_lengths : List Nat
  ticks : Nat
  deriving Repr, DecidableEq

/-- The state at startup: zero counters, std::vector of 2048 zeros. -/
def initState : SamplerState :=
  { cs := {}, packet_lengths := List.replicate 2048 0, ticks := 0 }

/-- packet_lengths[i] += 1 with no bounds check in the source (line 326):
in bounds it increments the cell, out of bounds it is undefined
behaviour, modelled as none. -/
def histUpdate (h : List Nat) (i : Nat) : Option (List Nat) :=
  if i < h.length then some (h.set i (h.getD i 0 + 1)) else none

/-- Lines 343-350: bump the acceptance counters for each accepting
acceptor and the inconsistency counter when they disagree. -/
def acceptCs (in_aut1 in_aut2 : Bool) (c : Counters) : Counters :=
  let c3 := if in_aut1 then
      { c with accepted_aut1 := c.accepted_aut1 + 1 } else c
  let c4 := if in_aut2 then
      { c3 with accepted_aut2 := c3.accepted_aut2 + 1 } else c3
  if in_aut1 ≠ in_aut2 then
    { c4 with incons_packets := c4.incons_packets + 1 } else c4

/-- The body of packetHandler (lines 326-356) after the histogram update
and get_payload have succeeded: total_packets increment, the counter
increments of get_payload, and for a non-empty payload the differential
test, the acceptance and disagreement counters, and the progress tick. -/
def handlerCore (a1 a2 : Word → Bool) (s : SamplerState) (pl : List Nat)
    (payload : Word) (dc : Counters) : SamplerState :=
  let cs1 := ({ s.cs with
    total_packets := s.cs.total_packets + 1 }).add dc
  if payload.isEmpty then
    { cs := cs1, packet_lengths := pl, ticks := s.ticks }
  else
    let cs2 := { cs1 with payloaded_packets := cs1.payloaded_packets + 1 }
    let cs5 := acceptCs (a1 payload) (a2 payload) cs2
    let tk := if cs5.total_packets % 1000 = 0 then s.ticks + 1 else s.ticks
    { cs := cs5, packet_lengths := pl, ticks := tk }

/-- packetHandler (lines 318-357), parametrized by the two acceptors'
membership tests (is_in_lang aut1 / aut2). none models the two aborting
paths: the out-of-bounds histogram write and the assert in get_payload. -/
def packetHandler (a1 a2 : Word → Bool) (f : Frame) (s : SamplerState) :
    Option SamplerState :=
  (histUpdate s.packet_lengths f.len).bind fun pl =>
    (get_payload f).map fun p => handlerCore a1 a2 s pl p.1 p.2

/-- pcap_loop: one packetHandler callback per frame, in capture order. -/
def runFrames (a1 a2 : Word → Bool) : List Frame → SamplerState →
    Option SamplerState
  | [], s => some s
  | f :: fs, s =>
    match packetHandler a1 a2 f s with
    | none => none
    | some s' => runFrames a1 a2 fs s'

def EXIT_SUCCESS : Nat := 0
def EXIT_FAILURE : Nat := 1

/-- The control flow of main (lines 90-174): exit code and whether the
final statistics report is printed. load1_ok / load2_ok: the two
load_aut calls did not throw; open_ok: pcap_open_offline succeeded;
loop_ok: pcap_loop returned without error. -/
def mainModel (argc : Nat) (load1_ok load2_ok open_ok loop_ok : Bool) :
    Nat × Bool :=
  if argc ≠ 4 then (EXIT_FAILURE, false)
  else if !(load1_ok && load2_ok) then (EXIT_FAILURE, false)
  else if !open_ok then (EXIT_FAILURE, false)
  else if !loop_ok then (EXIT_FAILURE, false)
  else (EXIT_SUCCESS, true)

/-- The counter fields the transport loop never touches are all zero in
its delta. -/
def untouchedDelta (c : Counters) : Prop :=
  c.total_packets = 0 ∧ c.payloaded_packets = 0 ∧ c.vlan_packets = 0 ∧
  c.ipv4_packets = 0 ∧ c.ipv6_packets = 0 ∧ c.other_l3_packets = 0 ∧
  c.incons_packets = 0 ∧ c.accepted_aut1 = 0 ∧ c.accepted_aut2 = 0

/-- The counter fields that are still zero in the delta accumulated when
the L3 dispatch hands over to the transport loop. -/
def l3BaseDelta (c : Counters) : Prop :=
  c.total_packets = 0 ∧ c.payloaded_packets = 0 ∧ c.incons_packets = 0 ∧
  c.accepted_aut1 = 0 ∧ c.accepted_aut2 = 0 ∧ c.ipv4_packets = 0 ∧
  c.ipv6_packets = 0 ∧ c.other_l3_packets = 0 ∧ c.other_l4_packets = 0 ∧
  c.gre_packets = 0 ∧ c.pim_packets = 0

/-- Contribution of a truncated frame: 1 when the loop ended at a
data-bearing layer whose slice offset is not below the declared length. -/
def truncCount (f : Frame) (dOff : Option Nat) : Nat :=
  match dOff with
  | some off => if f.len ≤ off then 1 else 0
  | none => 0

/-- What one IPv6-in-IPv4 step of the transport loop produces: the layer
is counted, the offset advances by the 40-byte IPv6 header, and the loop
exits (payload sliced here). -/
def ipv6HopResult (off : Nat) : LoopRes :=
  { outcome := LoopOutcome.payloadAt (off + 40), chain := [IPPROTO_IPV6],
    delta := { ip6_in_ip4_packets := 1 } }

/-! Concrete frames and states used by the scenario claims and witnesses. -/

/-- C6: untagged IPv4-in-IPv4 frame, inner protocol UDP, 4 payload bytes.
Ethernet (14, ethertype 0x0800), outer IPv4 (20, proto 4 at header byte
9), inner IPv4 (20, proto 17), UDP (8), payload. -/
def F6 : Frame :=
  { len := 66,
    data := List.replicate 12 0 ++ [8, 0] ++
      (List.replicate 9 0 ++ [4] ++ List.replicate 10 0) ++
      (List.replicate 9 0 ++ [17] ++ List.replicate 10 0) ++
      List.replicate 8 0 ++ [1, 2, 3, 4] }

/-- Counter increments of get_payload on F6. -/
def C6delta : Counters := { ipv4_packets := 1, udp_packets := 1, ipip_packets := 1 }

/-- C6 run: expected state after processing the single-frame capture. -/
def s6w : SamplerState :=
  { cs := { total_packets := 1, payloaded_packets := 1, ipv4_packets := 1,
            udp_packets := 1, ipip_packets := 1, accepted_aut1 := 1,
            accepted_aut2 := 1 },
    packet_lengths := (List.replicate 2048 0).set 66 1, ticks := 0 }

/-- C1 witness: untagged IPv4/UDP frame with 2 payload bytes. -/
def F1w : Frame :=
  { len := 44,
    data := List.replicate 12 0 ++ [8, 0] ++
      (List.replicate 9 0 ++ [17] ++ List.replicate 10 0) ++
      List.replicate 8 0 ++ [5, 6] }

/-- Counter increments of get_payload on F1w. -/
def D1w : Counters := { ipv4_packets := 1, udp_packets := 1 }

/-- C2 counterexample: untagged IPv4 frame carrying protocol 41
(IPv6-in-IPv4); the inner IPv6 header declares next-header UDP (17), an
8-byte UDP header and 4 payload bytes follow. -/
def F2x : Frame :=
  { len := 86,
    data := List.replicate 12 0 ++ [8, 0] ++
      (List.replicate 9 0 ++ [41] ++ List.replicate 10 0) ++
      (List.replicate 6 0 ++ [17] ++ List.replicate 33 0) ++
      List.replicate 8 0 ++ [9, 9, 9, 9] }

/-- C3 witness: a frame with an unrecognized ethertype 0x1234. -/
def F3w : Frame := { len := 14, data := List.replicate 12 0 ++ [18, 52] }

/-- C3 witness: expected state after processing [F3w]. -/
def s3w : SamplerState :=
  { cs := { total_packets := 1, other_l3_packets := 1 },
    packet_lengths := (List.replicate 2048 0).set 14 1, ticks := 0 }

/-- C5 witness: untagged IPv4/GRE frame (terminal, no payload). -/
def F5w : Frame :=
  { len := 34,
    data := List.replicate 12 0 ++ [8, 0] ++
      (List.replicate 9 0 ++ [47] ++ List.replicate 10 0) }

/-- C5 witness: expected state after processing [F5w]. -/
def s5w : SamplerState :=
  { cs := { total_packets := 1, ipv4_packets := 1, gre_packets := 1 },
    packet_lengths := (List.replicate 2048 0).set 34 1, ticks := 0 }

/-- C7 witness: untagged IPv4/UDP frame with 2 payload bytes. -/
def F7w : Frame :=
  { len := 44,
    data := List.replicate 12 0 ++ [8, 0] ++
      (List.replicate 9 0 ++ [17] ++ List.replicate 10 0) ++
      List.replicate 8 0 ++ [5, 6] }

/-- C7 witness: expected state for acceptors (always true, always false). -/
def s7a : SamplerState :=
  { cs := { total_packets := 1, payloaded_packets := 1, ipv4_packets := 1,
            udp_packets := 1, accepted_aut1 := 1, incons_packets := 1 },
    packet_lengths := (List.replicate 2048 0).set 44 1, ticks := 0 }

/-- C7 witness: expected state for the swapped acceptors. -/
def s7b : SamplerState :=
  { cs := { total_packets := 1, payloaded_packets := 1, ipv4_packets := 1,
            udp_packets := 1, accepted_aut2 := 1, incons_packets := 1 },
    packet_lengths := (List.replicate 2048 0).set 44 1, ticks := 0 }

/-- C8 counterexample: a frame with an unrecognized ethertype 0x1234. -/
def F8x : Frame := { len := 14, data := List.replicate 12 0 ++ [18, 52] }

/-- C8 counterexample: state in which 999 frames have been processed. -/
def s999 : SamplerState :=
  { cs := { total_packets := 999 },
    packet_lengths := List.replicate 2048 0, ticks := 0 }

/-- C8 counterexample: expected state after handling F8x from s999: the
1000th frame, empty payload, and no tick emitted. -/
def s1000x : SamplerState :=
  { cs := { total_packets := 1000, other_l3_packets := 1 },
    packet_lengths := (List.replicate 2048 0).set 14 1, ticks := 0 }

/-- C8 witness: untagged IPv4/UDP frame with 2 payload bytes. -/
def F8w : Frame :=
  { len := 44,
    data := List.replicate 12 0 ++ [8, 0] ++
      (List.replicate 9 0 ++ [17] ++ List.replicate 10 0) ++
      List.replicate 8 0 ++ [5, 6] }

/-- C8 witness: state in which 999 frames have been processed. -/
def s999w : SamplerState :=
  { cs := { total_packets := 999 },
    packet_lengths := List.replicate 2048 0, ticks := 0 }

/-- C8 witness: expected state after handling F8w from s999w: the 1000th
frame, non-empty payload, so a tick is emitted. -/
def s1000w : SamplerState :=
  { cs := { total_packets := 1000, ipv4_packets := 1, udp_packets := 1,
            payloaded_packets := 1 },
    packet_lengths := (List.replicate 2048 0).set 44 1, ticks := 1 }

/-- C10 witness: a frame whose declared length is 2048. -/
def F10x : Frame := { len := 2048, data := [] }


/-! Helper lemmas about the transport loop. -/

theorem byteAt_eq_zero {d : List Nat} {i : Nat} (h : d.length ≤ i) : byteAt d i = 0 :=
  List.getD_eq_default d 0 h

theorem loopMeasure_le (d : List Nat) (off proto : Nat) :
    loopMeasure d off proto ≤ d.length + 3 := by
  unfold loopMeasure; split_ifs <;> omega

theorem loopMeasure_pos (d : List Nat) (off proto : Nat) :
    1 ≤ loopMeasure d off proto := by
  unfold loopMeasure; split_ifs <;> omega

theorem loopMeasure_ipip {d : List Nat} {off fuel : Nat}
    (h : loopMeasure d off IPPROTO_IPIP ≤ fuel + 1) :
    loopMeasure d (off + 20) (byteAt d (off + 9)) ≤ fuel := by
  unfold loopMeasure at h ⊢
  by_cases h1 : off < d.length
  · rw [if_pos h1] at h
    by_cases h2 : off + 20 < d.length
    · rw [if_pos h2]; omega
    · rw [if_neg h2]; split_ifs <;> omega
  · rw [if_neg h1] at h
    have hb : byteAt d (off + 9) = 0 := byteAt_eq_zero (by omega)
    have h2 : ¬ off + 20 < d.length := by omega
    rw [if_neg h2, hb]
    simp only [IPPROTO_IPIP, IPPROTO_FRAGMENT] at h ⊢
    norm_num at h ⊢
    omega

theorem loopMeasure_frag {d : List Nat} {off fuel : Nat}
    (h : loopMeasure d off IPPROTO_FRAGMENT ≤ fuel + 1) :
    loopMeasure d (off + 8) (byteAt d off) ≤ fuel := by
  unfold loopMeasure at h ⊢
  by_cases h1 : off < d.length
  · rw [if_pos h1] at h
    by_cases h2 : off + 8 < d.length
    · rw [if_pos h2]; omega
    · rw [if_neg h2]; split_ifs <;> omega
  · rw [if_neg h1] at h
    have hb : byteAt d off = 0 := byteAt_eq_zero (by omega)
    have h2 : ¬ off + 8 < d.length := by omega
    rw [if_neg h2, hb]
    simp only [IPPROTO_IPIP, IPPROTO_FRAGMENT] at h ⊢
    norm_num at h ⊢
    omega


/-- Case analysis on one unfolding step of the transport loop. -/
theorem l4loopF_succ_elim (n : Nat) (d : List Nat) (off proto : Nat)
    (flag : Bool) (P : LoopRes → Prop)
    (htcp : proto = IPPROTO_TCP →
      P { outcome := .payloadAt (off + byteAt d (off + 12) / 16 * 4),
          chain := [proto], delta := { tcp_packets := 1 } })
    (hudp : proto = IPPROTO_UDP →
      P { outcome := .payloadAt (off + 8), chain := [proto],
          delta := { udp_packets := 1 } })
    (hipip2 : proto = IPPROTO_IPIP → flag = true →
      P { outcome := .abort, chain := [proto],
          delta := { ipip_packets := 1 } })
    (hipip1 : proto = IPPROTO_IPIP → flag = false →
      P (consIpip (l4loopF n d (off + 20) (byteAt d (off + 9)) true)))
    (hesp : proto = IPPROTO_ESP →
      P { outcome := .payloadAt (off + 8), chain := [proto],
          delta := { esp_packets := 1 } })
    (hicmp : proto = IPPROTO_ICMP →
      P { outcome := .payloadAt (off + 8), chain := [proto],
          delta := { icmp_packets := 1 } })
    (hgre : proto = IPPROTO_GRE →
      P { outcome := .noPayload, chain := [proto],
          delta := { gre_packets := 1 } })
    (hicmp6 : proto = IPPROTO_ICMPV6 →
      P { outcome := .payloadAt (off + 8), chain := [proto],
          delta := { icmp6_packets := 1 } })
    (hfrag : proto = IPPROTO_FRAGMENT →
      P (consFrag (l4loopF n d (off + 8) (byteAt d off) flag)))
    (hipv6 : proto = IPPROTO_IPV6 →
      P { outcome := .payloadAt (off + 40), chain := [proto],
          delta := { ip6_in_ip4_packets := 1 } })
    (hpim : proto = IPPROTO_PIM →
      P { outcome := .noPayload, chain := [proto],
          delta := { pim_packets := 1 } })
    (helse : proto ≠ IPPROTO_TCP → proto ≠ IPPROTO_UDP →
      proto ≠ IPPROTO_IPIP → proto ≠ IPPROTO_ESP → proto ≠ IPPROTO_ICMP →
      proto ≠ IPPROTO_GRE → proto ≠ IPPROTO_ICMPV6 →
      proto ≠ IPPROTO_FRAGMENT → proto ≠ IPPROTO_IPV6 →
      proto ≠ IPPROTO_PIM →
      P { outcome := .noPayload, chain := [proto],
          delta := { other_l4_packets := 1 } }) :
    P (l4loopF (n + 1) d off proto flag) := by
  simp only [l4loopF]
  by_cases h1 : proto = IPPROTO_TCP
  · rw [if_pos h1]; exact htcp h1
  rw [if_neg h1]
  by_cases h2 : proto = IPPROTO_UDP
  · rw [if_pos h2]; exact hudp h2
  rw [if_neg h2]
  by_cases h3 : proto = IPPROTO_IPIP
  · rw [if_pos h3]
    cases flag with
    | false =>
      rw [if_neg Bool.false_ne_true]
      exact hipip1 h3 rfl
    | true =>
      rw [if_pos rfl]
      exact hipip2 h3 rfl
  rw [if_neg h3]
  by_cases h4 : proto = IPPROTO_ESP
  · rw [if_pos h4]; exact hesp h4
  rw [if_neg h4]
  by_cases h5 : proto = IPPROTO_ICMP
  · rw [if_pos h5]; exact hicmp h5
  rw [if_neg h5]
  by_cases h6 : proto = IPPROTO_GRE
  · rw [if_pos h6]; exact hgre h6
  rw [if_neg h6]
  by_cases h7 : proto = IPPROTO_ICMPV6
  · rw [if_pos h7]; exact hicmp6 h7
  rw [if_neg h7]
  by_cases h8 : proto = IPPROTO_FRAGMENT
  · rw [if_pos h8]; exact hfrag h8
  rw [if_neg h8]
  by_cases h9 : proto = IPPROTO_IPV6
  · rw [if_pos h9]; exact hipv6 h9
  rw [if_neg h9]
  by_cases h10 : proto = IPPROTO_PIM
  · rw [if_pos h10]; exact hpim h10
  rw [if_neg h10]
  exact helse h1 h2 h3 h4 h5 h6 h7 h8 h9 h10

theorem l4loop_untouched_aux (fuel : Nat) (d : List Nat) :
    ∀ (off proto : Nat) (flag : Bool),
      untouchedDelta (l4loopF fuel d off proto flag).delta := by
  induction fuel with
  | zero =>
    intro off proto flag
    exact ⟨rfl, rfl, rfl, rfl, rfl, rfl, rfl, rfl, rfl⟩
  | succ n ih =>
    intro off proto flag
    refine l4loopF_succ_elim n d off proto flag
      (fun r => untouchedDelta r.delta) ?_ ?_ ?_ ?_ ?_ ?_ ?_ ?_ ?_ ?_ ?_ ?_
    · exact fun _ => ⟨rfl, rfl, rfl, rfl, rfl, rfl, rfl, rfl, rfl⟩
    · exact fun _ => ⟨rfl, rfl, rfl, rfl, rfl, rfl, rfl, rfl, rfl⟩
    · exact fun _ _ => ⟨rfl, rfl, rfl, rfl, rfl, rfl, rfl, rfl, rfl⟩
    · intro _ _
      obtain ⟨k1, k2, k3, k4, k5, k6, k7, k8, k9⟩ :=
        ih (off + 20) (byteAt d (off + 9)) true
      exact ⟨k1, k2, k3, k4, k5, k6, k7, k8, k9⟩
    · exact fun _ => ⟨rfl, rfl, rfl, rfl, rfl, rfl, rfl, rfl, rfl⟩
    · exact fun _ => ⟨rfl, rfl, rfl, rfl, rfl, rfl, rfl, rfl, rfl⟩
    · exact fun _ => ⟨rfl, rfl, rfl, rfl, rfl, rfl, rfl, rfl, rfl⟩
    · exact fun _ => ⟨rfl, rfl, rfl, rfl, rfl, rfl, rfl, rfl, rfl⟩
    · intro _
      obtain ⟨k1, k2, k3, k4, k5, k6, k7, k8, k9⟩ :=
        ih (off + 8) (byteAt d off) flag
      exact ⟨k1, k2, k3, k4, k5, k6, k7, k8, k9⟩
    · exact fun _ => ⟨rfl, rfl, rfl, rfl, rfl, rfl, rfl, rfl, rfl⟩
    · exact fun _ => ⟨rfl, rfl, rfl, rfl, rfl, rfl, rfl, rfl, rfl⟩
    · exact fun _ _ _ _ _ _ _ _ _ _ => ⟨rfl, rfl, rfl, rfl, rfl, rfl, rfl, rfl, rfl⟩

theorem l4loop_untouched (d : List Nat) (off proto : Nat) (flag : Bool) :
    untouchedDelta (l4loop d off proto flag).delta :=
  l4loop_untouched_aux (d.length + 3) d off proto flag

theorem l4loop_class_aux (fuel : Nat) (d : List Nat) :
    ∀ (off proto : Nat) (flag : Bool),
      loopMeasure d off proto ≤ fuel →
      ((l4loopF fuel d off proto flag).outcome ≠ .fuelOut ∧
       (∀ o, (l4loopF fuel d off proto flag).outcome = .payloadAt o →
         (l4loopF fuel d off proto flag).delta.gre_packets = 0 ∧
         (l4loopF fuel d off proto flag).delta.pim_packets = 0 ∧
         (l4loopF fuel d off proto flag).delta.other_l4_packets = 0) ∧
       ((l4loopF fuel d off proto flag).outcome = .noPayload →
         (l4loopF fuel d off proto flag).delta.gre_packets +
           (l4loopF fuel d off proto flag).delta.pim_packets +
           (l4loopF fuel d off proto flag).delta.other_l4_packets = 1)) := by
  induction fuel with
  | zero =>
    intro off proto flag hm
    exact absurd hm (by have := loopMeasure_pos d off proto; omega)
  | succ n ih =>
    intro off proto flag hm
    refine l4loopF_succ_elim n d off proto flag
      (fun r => r.outcome ≠ .fuelOut ∧
        (∀ o, r.outcome = .payloadAt o →
          r.delta.gre_packets = 0 ∧ r.delta.pim_packets = 0 ∧
          r.delta.other_l4_packets = 0) ∧
        (r.outcome = .noPayload →
          r.delta.gre_packets + r.delta.pim_packets +
            r.delta.other_l4_packets = 1)) ?_ ?_ ?_ ?_ ?_ ?_ ?_ ?_ ?_ ?_ ?_ ?_
    · exact fun _ => ⟨fun hc => LoopOutcome.noConfusion hc,
        fun o _ => ⟨rfl, rfl, rfl⟩, fun hc => LoopOutcome.noConfusion hc⟩
    · exact fun _ => ⟨fun hc => LoopOutcome.noConfusion hc,
        fun o _ => ⟨rfl, rfl, rfl⟩, fun hc => LoopOutcome.noConfusion hc⟩
    · exact fun _ _ => ⟨fun hc => LoopOutcome.noConfusion hc,
        fun o hc => LoopOutcome.noConfusion hc,
        fun hc => LoopOutcome.noConfusion hc⟩
    · intro h _
      obtain ⟨k1, k2, k3⟩ :=
        ih (off + 20) (byteAt d (off + 9)) true (loopMeasure_ipip (h ▸ hm))
      exact ⟨k1, fun o ho => k2 o ho, fun hn => k3 hn⟩
    · exact fun _ => ⟨fun hc => LoopOutcome.noConfusion hc,
        fun o _ => ⟨rfl, rfl, rfl⟩, fun hc => LoopOutcome.noConfusion hc⟩
    · exact fun _ => ⟨fun hc => LoopOutcome.noConfusion hc,
        fun o _ => ⟨rfl, rfl, rfl⟩, fun hc => LoopOutcome.noConfusion hc⟩
    · exact fun _ => ⟨fun hc => LoopOutcome.noConfusion hc,
        fun o hc => LoopOutcome.noConfusion hc, fun _ => rfl⟩
    · exact fun _ => ⟨fun hc => LoopOutcome.noConfusion hc,
        fun o _ => ⟨rfl, rfl, rfl⟩, fun hc => LoopOutcome.noConfusion hc⟩
    · intro h
      obtain ⟨k1, k2, k3⟩ :=
        ih (off + 8) (byteAt d off) flag (loopMeasure_frag (h ▸ hm))
      exact ⟨k1, fun o ho => k2 o ho, fun hn => k3 hn⟩
    · exact fun _ => ⟨fun hc => LoopOutcome.noConfusion hc,
        fun o _ => ⟨rfl, rfl, rfl⟩, fun hc => LoopOutcome.noConfusion hc⟩
    · exact fun _ => ⟨fun hc => LoopOutcome.noConfusion hc,
        fun o hc => LoopOutcome.noConfusion hc, fun _ => rfl⟩
    · exact fun _ _ _ _ _ _ _ _ _ _ => ⟨fun hc => LoopOutcome.noConfusion hc,
        fun o hc => LoopOutcome.noConfusion hc, fun _ => rfl⟩

theorem l4loop_class (d : List Nat) (off proto : Nat) (flag : Bool) :
    ((l4loop d off proto flag).outcome ≠ .fuelOut ∧
     (∀ o, (l4loop d off proto flag).outcome = .payloadAt o →
       (l4loop d off proto flag).delta.gre_packets = 0 ∧
       (l4loop d off proto flag).delta.pim_packets = 0 ∧
       (l4loop d off proto flag).delta.other_l4_packets = 0) ∧
     ((l4loop d off proto flag).outcome = .noPayload →
       (l4loop d off proto flag).delta.gre_packets +
         (l4loop d off proto flag).delta.pim_packets +
         (l4loop d off proto flag).delta.other_l4_packets = 1)) :=
  l4loop_class_aux (d.length + 3) d off proto flag (loopMeasure_le d off proto)

theorem l4loop_abort_count_aux (fuel : Nat) (d : List Nat) :
    ∀ (off proto : Nat) (flag : Bool),
      loopMeasure d off proto ≤ fuel →
      ((l4loopF fuel d off proto flag).outcome = .abort ↔
        2 ≤ (if flag then 1 else 0) +
          (l4loopF fuel d off proto flag).chain.count IPPROTO_IPIP) := by
  induction fuel with
  | zero =>
    intro off proto flag hm
    exact absurd hm (by have := loopMeasure_pos d off proto; omega)
  | succ n ih =>
    intro off proto flag hm
    refine l4loopF_succ_elim n d off proto flag
      (fun r => r.outcome = .abort ↔
        2 ≤ (if flag then 1 else 0) + r.chain.count IPPROTO_IPIP)
      ?_ ?_ ?_ ?_ ?_ ?_ ?_ ?_ ?_ ?_ ?_ ?_
    · intro h; subst h; cases flag <;>
        simp [List.count_cons, IPPROTO_TCP, IPPROTO_IPIP]
    · intro h; subst h; cases flag <;>
        simp [List.count_cons, IPPROTO_UDP, IPPROTO_IPIP]
    · intro h hf; subst h; subst hf
      simp [List.count_cons]
    · intro h hf; subst h; subst hf
      have hrec := ih (off + 20) (byteAt d (off + 9)) true
        (loopMeasure_ipip hm)
      simp only [eq_self_iff_true, if_true] at hrec
      simp only [consIpip, List.count_cons_self, Bool.false_eq_true, if_false]
      rw [hrec]
      omega
    · intro h; subst h; cases flag <;>
        simp [List.count_cons, IPPROTO_ESP, IPPROTO_IPIP]
    · intro h; subst h; cases flag <;>
        simp [List.count_cons, IPPROTO_ICMP, IPPROTO_IPIP]
    · intro h; subst h; cases flag <;>
        simp [List.count_cons, IPPROTO_GRE, IPPROTO_IPIP]
    · intro h; subst h; cases flag <;>
        simp [List.count_cons, IPPROTO_ICMPV6, IPPROTO_IPIP]
    · intro h; subst h
      have hrec := ih (off + 8) (byteAt d off) flag (loopMeasure_frag hm)
      have hne : (IPPROTO_FRAGMENT == IPPROTO_IPIP) = false := by decide
      simp only [consFrag, List.count_cons, hne, Bool.false_eq_true,
        if_false, add_zero]
      exact hrec
    · intro h; subst h; cases flag <;>
        simp [List.count_cons, IPPROTO_IPV6, IPPROTO_IPIP]
    · intro h; subst h; cases flag <;>
        simp [List.count_cons, IPPROTO_PIM, IPPROTO_IPIP]
    · intro h1 h2 h3 h4 h5 h6 h7 h8 h9 h10
      have hne : (proto == IPPROTO_IPIP) = false := by
        simp [h3]
      cases flag <;> simp [List.count_cons, hne]

theorem l4loop_abort_count (d : List Nat) (off proto : Nat) (flag : Bool) :
    ((l4loop d off proto flag).outcome = .abort ↔
      2 ≤ (if flag then 1 else 0) +
        (l4loop d off proto flag).chain.count IPPROTO_IPIP) :=
  l4loop_abort_count_aux (d.length + 3) d off proto flag
    (loopMeasure_le d off proto)

/-! Payload-slice lemmas. -/

theorem mkPayload_length (f : Frame) (off : Nat) :
    (mkPayload f off).length = Nat.max f.len off - off := by
  simp [mkPayload]

theorem mkPayload_eq_nil_iff (f : Frame) (off : Nat) :
    mkPayload f off = [] ↔ f.len ≤ off := by
  constructor
  · intro h
    have hl := congrArg List.length h
    rw [mkPayload_length] at hl
    simp only [List.length_nil] at hl
    rcases Nat.le_total f.len off with hc | hc
    · exact hc
    · have hm : f.len.max off = f.len := Nat.max_eq_left hc
      omega
  · intro h
    have hm : Nat.max f.len off = off := Nat.max_eq_right h
    simp [mkPayload, hm]

theorem mkPayload_isEmpty_iff (f : Frame) (off : Nat) :
    (mkPayload f off).isEmpty = true ↔ f.len ≤ off := by
  rw [List.isEmpty_iff]
  exact mkPayload_eq_nil_iff f off

theorem mkPayload_eq_drop (f : Frame) (off : Nat) (h : off ≤ f.len) :
    mkPayload f off = (wire f).drop off := by
  have hm : Nat.max f.len off = f.len := Nat.max_eq_left h
  apply List.ext_getElem
  · simp [mkPayload, wire, hm]
  · intro i h1 h2
    simp [mkPayload, wire, hm, List.getElem_drop]

theorem mkPayload_sub_wire (f : Frame) (off : Nat) :
    mkPayload f off <:+: wire f := by
  by_cases h : off ≤ f.len
  · rw [mkPayload_eq_drop f off h]
    exact (List.drop_suffix off (wire f)).isInfix
  · rw [(mkPayload_eq_nil_iff f off).2 (by omega)]
    exact ⟨[], wire f, by simp⟩

/-! Demultiplexer-level lemmas. -/

theorem finishLoop_ok (f : Frame) (r : LoopRes) (dc0 : Counters)
    (w : Word) (dOff : Option Nat) (ch : List Nat) (dc : Counters)
    (h : finishLoop f r dc0 = .ok w dOff ch dc) :
    ch = r.chain ∧ dc = dc0.add r.delta ∧
    ((r.outcome = .noPayload ∧ w = [] ∧ dOff = none) ∨
     (∃ off, r.outcome = .payloadAt off ∧ w = mkPayload f off ∧
       dOff = some off)) := by
  unfold finishLoop at h
  cases ho : r.outcome with
  | fuelOut => rw [ho] at h; exact DemuxRes.noConfusion h
  | abort => rw [ho] at h; exact DemuxRes.noConfusion h
  | noPayload =>
    rw [ho] at h
    injection h with h1 h2 h3 h4
    exact ⟨h3.symm, h4.symm, Or.inl ⟨rfl, h1.symm, h2.symm⟩⟩
  | payloadAt off =>
    rw [ho] at h
    injection h with h1 h2 h3 h4
    exact ⟨h3.symm, h4.symm, Or.inr ⟨off, rfl, h1.symm, h2.symm⟩⟩

theorem finishLoop_abort (f : Frame) (r : LoopRes) (dc0 : Counters)
    (ch : List Nat) (dc : Counters)
    (h : finishLoop f r dc0 = .abort ch dc) :
    ch = r.chain ∧ (r.outcome = .fuelOut ∨ r.outcome = .abort) := by
  unfold finishLoop at h
  cases ho : r.outcome with
  | fuelOut =>
    rw [ho] at h
    injection h with h1 h2
    exact ⟨h1.symm, Or.inl rfl⟩
  | abort =>
    rw [ho] at h
    injection h with h1 h2
    exact ⟨h1.symm, Or.inr rfl⟩
  | noPayload => rw [ho] at h; exact DemuxRes.noConfusion h
  | payloadAt off => rw [ho] at h; exact DemuxRes.noConfusion h

theorem demuxL3_ok_spec (f : Frame) (offset et : Nat) (dc0 : Counters)
    (hb : l3BaseDelta dc0)
    (w : Word) (dOff : Option Nat) (ch : List Nat) (dc : Counters)
    (h : demuxL3 f offset et dc0 = .ok w dOff ch dc) :
    dc.total_packets = 0 ∧ dc.payloaded_packets = 0 ∧
    dc.incons_packets = 0 ∧ dc.accepted_aut1 = 0 ∧ dc.accepted_aut2 = 0 ∧
    dc.ipv4_packets + dc.ipv6_packets + dc.other_l3_packets = 1 ∧
    (dc.other_l3_packets + dc.other_l4_packets + dc.gre_packets +
        dc.pim_packets +
        truncCount f dOff
      = if w.isEmpty then 1 else 0) ∧
    (∀ off, dOff = some off → w = mkPayload f off) ∧
    (dOff = none → w = []) := by
  obtain ⟨b1, b2, b3, b4, b5, b6, b7, b8, b9, b10, b11⟩ := hb
  unfold demuxL3 at h
  split_ifs at h with h1 h2
  · -- IPv4 branch
    obtain ⟨u1, u2, u3, u4, u5, u6, u7, u8, u9⟩ :=
      l4loop_untouched f.data (offset + 20) (byteAt f.data (offset + 9)) false
    obtain ⟨c1, c2, c3⟩ :=
      l4loop_class f.data (offset + 20) (byteAt f.data (offset + 9)) false
    obtain ⟨hch, hdc, hcase⟩ := finishLoop_ok f _ _ w dOff ch dc h
    subst hdc
    rcases hcase with ⟨ho, hw, hoff⟩ | ⟨off, ho, hw, hoff⟩
    · subst hw; subst hoff
      have hnp := c3 ho
      simp only [Counters.add]
      refine ⟨by omega, by omega, by omega, by omega, by omega, by omega,
        ?_, fun o hc => Option.noConfusion hc, fun _ => trivial⟩
      simp only [truncCount, List.isEmpty_nil, eq_self_iff_true, if_true]
      omega
    · subst hw; subst hoff
      obtain ⟨p1, p2, p3⟩ := c2 off ho
      simp only [Counters.add]
      refine ⟨by omega, by omega, by omega, by omega, by omega, by omega,
        ?_, ?_, fun hc => Option.noConfusion hc⟩
      · simp only [truncCount]
        by_cases ht : f.len ≤ off
        · rw [if_pos ((mkPayload_isEmpty_iff f off).2 ht)]
          simp only [if_pos ht]
          omega
        · have : ¬ (mkPayload f off).isEmpty = true := by
            rw [mkPayload_isEmpty_iff f off]; omega
          rw [if_neg this]
          simp only [if_neg ht]
          omega
      · intro o ho2
        injection ho2 with ho3
        rw [ho3]
  · -- IPv6 branch
    obtain ⟨u1, u2, u3, u4, u5, u6, u7, u8, u9⟩ :=
      l4loop_untouched f.data (offset + 40) (byteAt f.data (offset + 6)) false
    obtain ⟨c1, c2, c3⟩ :=
      l4loop_class f.data (offset + 40) (byteAt f.data (offset + 6)) false
    obtain ⟨hch, hdc, hcase⟩ := finishLoop_ok f _ _ w dOff ch dc h
    subst hdc
    rcases hcase with ⟨ho, hw, hoff⟩ | ⟨off, ho, hw, hoff⟩
    · subst hw; subst hoff
      have hnp := c3 ho
      simp only [Counters.add]
      refine ⟨by omega, by omega, by omega, by omega, by omega, by omega,
        ?_, fun o hc => Option.noConfusion hc, fun _ => trivial⟩
      simp only [truncCount, List.isEmpty_nil, eq_self_iff_true, if_true]
      omega
    · subst hw; subst hoff
      obtain ⟨p1, p2, p3⟩ := c2 off ho
      simp only [Counters.add]
      refine ⟨by omega, by omega, by omega, by omega, by omega, by omega,
        ?_, ?_, fun hc => Option.noConfusion hc⟩
      · simp only [truncCount]
        by_cases ht : f.len ≤ off
        · rw [if_pos ((mkPayload_isEmpty_iff f off).2 ht)]
          simp only [if_pos ht]
          omega
        · have : ¬ (mkPayload f off).isEmpty = true := by
            rw [mkPayload_isEmpty_iff f off]; omega
          rw [if_neg this]
          simp only [if_neg ht]
          omega
      · intro o ho2
        injection ho2 with ho3
        rw [ho3]
  · -- other L3
    injection h with k1 k2 k3 k4
    subst k1; subst k2; subst k4
    simp only [Counters.add]
    refine ⟨by omega, by omega, by omega, by omega, by omega, by omega,
      ?_, fun o hc => Option.noConfusion hc, fun _ => trivial⟩
    simp only [truncCount, List.isEmpty_nil, eq_self_iff_true, if_true]
    omega

theorem demux_ok_spec (f : Frame) (w : Word) (dOff : Option Nat)
    (ch : List Nat) (dc : Counters) (h : demux f = .ok w dOff ch dc) :
    dc.total_packets = 0 ∧ dc.payloaded_packets = 0 ∧
    dc.incons_packets = 0 ∧ dc.accepted_aut1 = 0 ∧ dc.accepted_aut2 = 0 ∧
    dc.ipv4_packets + dc.ipv6_packets + dc.other_l3_packets = 1 ∧
    (dc.other_l3_packets + dc.other_l4_packets + dc.gre_packets +
        dc.pim_packets +
        truncCount f dOff
      = if w.isEmpty then 1 else 0) ∧
    (∀ off, dOff = some off → w = mkPayload f off) ∧
    (dOff = none → w = []) := by
  unfold demux at h
  split_ifs at h with hv
  · exact demuxL3_ok_spec f 18 (be16 f.data 16) _
      ⟨rfl, rfl, rfl, rfl, rfl, rfl, rfl, rfl, rfl, rfl, rfl⟩ w dOff ch dc h
  · exact demuxL3_ok_spec f 14 (be16 f.data 12) _
      ⟨rfl, rfl, rfl, rfl, rfl, rfl, rfl, rfl, rfl, rfl, rfl⟩ w dOff ch dc h

/-! Per-frame handler lemmas. -/

theorem emptyPayload_eq (f : Frame) (w : Word) (dOff : Option Nat)
    (ch : List Nat) (dc : Counters) (h : demux f = .ok w dOff ch dc) :
    emptyPayload f = w.isEmpty := by
  unfold emptyPayload; rw [h]

theorem truncatedFrame_eq (f : Frame) (w : Word) (dOff : Option Nat)
    (ch : List Nat) (dc : Counters) (h : demux f = .ok w dOff ch dc) :
    (if truncatedFrame f then 1 else 0) = truncCount f dOff := by
  unfold truncatedFrame truncCount
  rw [h]
  cases dOff with
  | none => simp
  | some off => by_cases ht : f.len ≤ off <;> simp [ht]

theorem packetHandler_some (a1 a2 : Word → Bool) (f : Frame)
    (s s' : SamplerState) (h : packetHandler a1 a2 f s = some s') :
    ∃ pl w dOff ch dc,
      histUpdate s.packet_lengths f.len = some pl ∧
      demux f = .ok w dOff ch dc ∧
      s' = handlerCore a1 a2 s pl w dc := by
  unfold packetHandler at h
  cases hh : histUpdate s.packet_lengths f.len with
  | none => rw [hh] at h; exact Option.noConfusion h
  | some pl =>
    rw [hh] at h
    cases hp : get_payload f with
    | none => rw [hp] at h; exact Option.noConfusion h
    | some pr =>
      rw [hp] at h
      obtain ⟨w, dc⟩ := pr
      unfold get_payload at hp
      cases hd : demux f with
      | abort ch0 dc0 => rw [hd] at hp; exact Option.noConfusion hp
      | ok w0 dOff ch dc0 =>
        rw [hd] at hp
        injection hp with hp1
        injection hp1 with hw hdc
        subst hw; subst hdc
        injection h with hs
        exact ⟨pl, w0, dOff, ch, dc0, rfl, rfl, hs.symm⟩

theorem acceptCs_spec (in1 in2 : Bool) (c : Counters) :
    (acceptCs in1 in2 c).total_packets = c.total_packets ∧
    (acceptCs in1 in2 c).payloaded_packets = c.payloaded_packets ∧
    (acceptCs in1 in2 c).ipv4_packets = c.ipv4_packets ∧
    (acceptCs in1 in2 c).ipv6_packets = c.ipv6_packets ∧
    (acceptCs in1 in2 c).other_l3_packets = c.other_l3_packets ∧
    (acceptCs in1 in2 c).other_l4_packets = c.other_l4_packets ∧
    (acceptCs in1 in2 c).gre_packets = c.gre_packets ∧
    (acceptCs in1 in2 c).pim_packets = c.pim_packets ∧
    (acceptCs in1 in2 c).accepted_aut1
      = c.accepted_aut1 + (if in1 then 1 else 0) ∧
    (acceptCs in1 in2 c).accepted_aut2
      = c.accepted_aut2 + (if in2 then 1 else 0) ∧
    (acceptCs in1 in2 c).incons_packets
      = c.incons_packets + (if in1 ≠ in2 then 1 else 0) := by
  cases in1 <;> cases in2 <;>
    refine ⟨rfl, rfl, rfl, rfl, rfl, rfl, rfl, rfl, ?_, ?_, ?_⟩ <;>
    simp [acceptCs]

theorem handlerCore_spec (a1 a2 : Word → Bool) (s : SamplerState)
    (pl : List Nat) (w : Word) (dc : Counters) (s' : SamplerState)
    (h : handlerCore a1 a2 s pl w dc = s') :
    s'.packet_lengths = pl ∧
    s'.cs.total_packets = s.cs.total_packets + 1 + dc.total_packets ∧
    s'.cs.ipv4_packets = s.cs.ipv4_packets + dc.ipv4_packets ∧
    s'.cs.ipv6_packets = s.cs.ipv6_packets + dc.ipv6_packets ∧
    s'.cs.other_l3_packets = s.cs.other_l3_packets + dc.other_l3_packets ∧
    s'.cs.other_l4_packets = s.cs.other_l4_packets + dc.other_l4_packets ∧
    s'.cs.gre_packets = s.cs.gre_packets + dc.gre_packets ∧
    s'.cs.pim_packets = s.cs.pim_packets + dc.pim_packets ∧
    s'.cs.payloaded_packets = s.cs.payloaded_packets + dc.payloaded_packets +
      (if w.isEmpty then 0 else 1) ∧
    s'.cs.accepted_aut1 = s.cs.accepted_aut1 + dc.accepted_aut1 +
      (if w.isEmpty then 0 else if a1 w then 1 else 0) ∧
    s'.cs.accepted_aut2 = s.cs.accepted_aut2 + dc.accepted_aut2 +
      (if w.isEmpty then 0 else if a2 w then 1 else 0) ∧
    s'.cs.incons_packets = s.cs.incons_packets + dc.incons_packets +
      (if w.isEmpty then 0 else if a1 w ≠ a2 w then 1 else 0) ∧
    (s'.ticks = s.ticks ∨ s'.ticks = s.ticks + 1) ∧
    (s'.ticks = s.ticks + 1 ↔
      (w.isEmpty = false ∧ s'.cs.total_packets % 1000 = 0)) := by
  simp only [handlerCore] at h
  by_cases he : w.isEmpty = true
  · rw [if_pos he] at h
    subst h
    refine ⟨rfl, rfl, rfl, rfl, rfl, rfl, rfl, rfl, ?_, ?_, ?_, ?_,
      Or.inl rfl, ?_⟩
    · rw [if_pos he]; exact rfl
    · rw [if_pos he]; exact rfl
    · rw [if_pos he]; exact rfl
    · rw [if_pos he]; exact rfl
    · constructor
      · intro hx; exact absurd hx.symm (Nat.succ_ne_self s.ticks)
      · rintro ⟨hf, -⟩; rw [he] at hf; exact Bool.noConfusion hf
  · rw [if_neg he] at h
    have hef : w.isEmpty = false := by revert he; cases w.isEmpty <;> simp
    obtain ⟨a1', a2', a3', a4', a5', a6', a7', a8', a9', a10', a11'⟩ :=
      acceptCs_spec (a1 w) (a2 w)
        { ({ s.cs with total_packets := s.cs.total_packets + 1 }).add dc with
          payloaded_packets :=
            (({ s.cs with total_packets := s.cs.total_packets + 1 }).add
              dc).payloaded_packets + 1 }
    subst h
    refine ⟨rfl, by rw [a1']; rfl, by rw [a3']; rfl, by rw [a4']; rfl,
      by rw [a5']; rfl, by rw [a6']; rfl, by rw [a7']; rfl,
      by rw [a8']; rfl, ?_, ?_, ?_, ?_, ?_, ?_⟩
    · rw [a2', hef]
      simp only [Bool.false_eq_true, if_false]
      rfl
    · rw [a9', if_neg he]; exact rfl
    · rw [a10', if_neg he]; exact rfl
    · rw [a11', if_neg he]; exact rfl
    · by_cases ht : (acceptCs (a1 w) (a2 w)
          { ({ s.cs with total_packets := s.cs.total_packets + 1 }).add dc with
            payloaded_packets :=
              (({ s.cs with total_packets := s.cs.total_packets + 1 }).add
                dc).payloaded_packets + 1 }).total_packets % 1000 = 0
      · exact Or.inr (by rw [if_pos ht])
      · exact Or.inl (by rw [if_neg ht])
    · by_cases ht : (acceptCs (a1 w) (a2 w)
          { ({ s.cs with total_packets := s.cs.total_packets + 1 }).add dc with
            payloaded_packets :=
              (({ s.cs with total_packets := s.cs.total_packets + 1 }).add
                dc).payloaded_packets + 1 }).total_packets % 1000 = 0
      · rw [if_pos ht]
        exact ⟨fun _ => ⟨hef, ht⟩, fun _ => rfl⟩
      · rw [if_neg ht]
        constructor
        · intro hx; exact absurd hx.symm (Nat.succ_ne_self s.ticks)
        · rintro ⟨-, hc⟩; exact absurd hc ht

/-! Run-level lemmas. -/

theorem length_filter_cons {α : Type} (p : α → Bool) (x : α) (l : List α) :
    ((x :: l).filter p).length = (if p x then 1 else 0) + (l.filter p).length := by
  by_cases hx : p x <;> simp [List.filter_cons, hx] <;> omega

theorem acceptsPayload_eq (a : Word → Bool) (f : Frame) (w : Word)
    (dOff : Option Nat) (ch : List Nat) (dc : Counters)
    (h : demux f = .ok w dOff ch dc) :
    acceptsPayload a f = (!w.isEmpty && a w) := by
  unfold acceptsPayload get_payload
  rw [h]

theorem disagrees_eq (a1 a2 : Word → Bool) (f : Frame) (w : Word)
    (dOff : Option Nat) (ch : List Nat) (dc : Counters)
    (h : demux f = .ok w dOff ch dc) :
    disagrees a1 a2 f = (!w.isEmpty && (a1 w != a2 w)) := by
  unfold disagrees get_payload
  rw [h]

theorem accept_if_eq (e b : Bool) :
    (if (!e && b) = true then (1 : Nat) else 0)
      = if e = true then 0 else if b = true then 1 else 0 := by
  cases e <;> cases b <;> simp

theorem disagree_if_eq (e x y : Bool) :
    (if (!e && (x != y)) = true then (1 : Nat) else 0)
      = if e = true then 0 else if x ≠ y then 1 else 0 := by
  cases e <;> cases x <;> cases y <;> simp

theorem disagrees_symm (a1 a2 : Word → Bool) (f : Frame) :
    disagrees a2 a1 f = disagrees a1 a2 f := by
  unfold disagrees
  cases hp : get_payload f with
  | none => rfl
  | some pr =>
    cases h1 : a1 pr.1 <;> cases h2 : a2 pr.1 <;> simp [h1, h2]

theorem run_spec (a1 a2 : Word → Bool) : ∀ (fs : List Frame)
    (s s' : SamplerState), runFrames a1 a2 fs s = some s' →
    s'.cs.total_packets = s.cs.total_packets + fs.length ∧
    s'.cs.ipv4_packets + s'.cs.ipv6_packets + s'.cs.other_l3_packets
      = s.cs.ipv4_packets + s.cs.ipv6_packets + s.cs.other_l3_packets
        + fs.length ∧
    s'.cs.payloaded_packets + (fs.filter emptyPayload).length
      = s.cs.payloaded_packets + fs.length ∧
    s'.cs.other_l3_packets + s'.cs.other_l4_packets + s'.cs.gre_packets +
        s'.cs.pim_packets + (fs.filter truncatedFrame).length
      = s.cs.other_l3_packets + s.cs.other_l4_packets + s.cs.gre_packets +
        s.cs.pim_packets + (fs.filter emptyPayload).length ∧
    s'.cs.accepted_aut1
      = s.cs.accepted_aut1 + (fs.filter (acceptsPayload a1)).length ∧
    s'.cs.accepted_aut2
      = s.cs.accepted_aut2 + (fs.filter (acceptsPayload a2)).length ∧
    s'.cs.incons_packets
      = s.cs.incons_packets + (fs.filter (disagrees a1 a2)).length := by
  intro fs
  induction fs with
  | nil =>
    intro s s' h
    injection h with hs
    subst hs
    simp
  | cons f fs ih =>
    intro s s' h
    unfold runFrames at h
    cases hph : packetHandler a1 a2 f s with
    | none => rw [hph] at h; exact Option.noConfusion h
    | some t =>
      rw [hph] at h
      obtain ⟨ih1, ih2, ih3, ih4, ih5, ih6, ih7⟩ := ih t s' h
      obtain ⟨pl, w, dOff, ch, dc, hh, hd, hcore⟩ :=
        packetHandler_some a1 a2 f s t hph
      obtain ⟨k1, k2, k3, k4, k5, k6, k7, k8, k9, k10, k11, k12, k13, k14⟩ :=
        handlerCore_spec a1 a2 s pl w dc t hcore.symm
      obtain ⟨d1, d2, d3, d4, d5, d6, d7, d8, d9⟩ := demux_ok_spec f w dOff ch dc hd
      have hE : emptyPayload f = w.isEmpty := emptyPayload_eq f w dOff ch dc hd
      have hT : (if truncatedFrame f then 1 else 0) = truncCount f dOff :=
        truncatedFrame_eq f w dOff ch dc hd
      have hA1 : acceptsPayload a1 f = (!w.isEmpty && a1 w) :=
        acceptsPayload_eq a1 f w dOff ch dc hd
      have hA2 : acceptsPayload a2 f = (!w.isEmpty && a2 w) :=
        acceptsPayload_eq a2 f w dOff ch dc hd
      have hDg : disagrees a1 a2 f = (!w.isEmpty && (a1 w != a2 w)) :=
        disagrees_eq a1 a2 f w dOff ch dc hd
      simp only [List.length_cons, length_filter_cons, hE, hT, hA1, hA2, hDg]
      cases hw : w.isEmpty with
      | true =>
        rw [hw] at k9 k10 k11 k12 d7
        simp at k9 k10 k11 k12 d7 ⊢
        exact ⟨by omega, by omega, by omega, by omega, by omega, by omega,
          by omega⟩
      | false =>
        rw [hw] at k9 k10 k11 k12 d7
        cases ha1 : a1 w <;> cases ha2 : a2 w <;>
          rw [ha1] at k10 k12 <;> rw [ha2] at k11 k12 <;>
          simp at k9 k10 k11 k12 d7 ⊢ <;>
          exact ⟨by omega, by omega, by omega, by omega, by omega, by omega,
            by omega⟩

/-! Symbolic evaluation helpers for concrete runs (avoiding elementwise
evaluation of the 2048-cell histogram). -/

theorem getD_replicate (a d : Nat) : ∀ (n i : Nat), i < n →
    (List.replicate n a).getD i d = a := by
  intro n
  induction n with
  | zero => intro i h; omega
  | succ m ih =>
    intro i h
    cases i with
    | zero => rfl
    | succ j => exact ih j (by omega)

theorem histUpdate_replicate (i : Nat) (h : i < 2048) :
    histUpdate (List.replicate 2048 0) i
      = some ((List.replicate 2048 0).set i 1) := by
  unfold histUpdate
  rw [List.length_replicate, if_pos h, getD_replicate 0 0 2048 i h]

theorem packetHandler_eval (a1 a2 : Word → Bool) (f : Frame)
    (s : SamplerState) (w : Word) (dc : Counters)
    (hpl : s.packet_lengths = List.replicate 2048 0)
    (hlen : f.len < 2048)
    (hg : get_payload f = some (w, dc)) :
    packetHandler a1 a2 f s
      = some (handlerCore a1 a2 s ((List.replicate 2048 0).set f.len 1) w dc) := by
  unfold packetHandler
  rw [hpl, histUpdate_replicate f.len hlen, hg]
  rfl

theorem runFrames_one (a1 a2 : Word → Bool) (f : Frame)
    (s t : SamplerState) (h : packetHandler a1 a2 f s = some t) :
    runFrames a1 a2 [f] s = some t := by
  unfold runFrames
  rw [h]
  rfl

/-! Claim theorems. -/

/-- Claim C1: for every frame, the payload returned by get_payload, if
non-empty, is a sub-range (contiguous infix) of the original frame
buffer; the slice runs from the computed header offset to
max(declared length, offset), so its start never exceeds its end; and
when the declared frame length is shorter than the computed header
offset the payload is empty rather than negative-length. -/
theorem claim_C1_payload_subrange (f : Frame) (w : Word) (dOff : Option Nat)
    (ch : List Nat) (dc : Counters) (h : demux f = .ok w dOff ch dc) :
    get_payload f = some (w, dc) ∧
    (w ≠ [] → w <:+: wire f) ∧
    (∀ off, dOff = some off →
      w = mkPayload f off ∧ off ≤ Nat.max f.len off ∧
      off + w.length = Nat.max f.len off ∧
      (f.len < off → w = [])) := by
  obtain ⟨-, -, -, -, -, -, -, d8, d9⟩ := demux_ok_spec f w dOff ch dc h
  refine ⟨?_, ?_, ?_⟩
  · unfold get_payload; rw [h]
  · intro hne
    cases dOff with
    | none => exact absurd (d9 rfl) hne
    | some off =>
      rw [d8 off rfl]
      exact mkPayload_sub_wire f off
  · intro off hoff
    have hw := d8 off hoff
    subst hw
    have hmax : off ≤ Nat.max f.len off := Nat.le_max_right f.len off
    refine ⟨rfl, hmax, ?_, fun hlt => (mkPayload_eq_nil_iff f off).2 (by omega)⟩
    rw [mkPayload_length]
    omega

/-- Claim C1 witness: a concrete IPv4/UDP frame. -/
theorem claim_C1_witness :
    demux F1w = .ok [5, 6] (some 42) [IPPROTO_UDP] D1w ∧
    (([5, 6] : Word) ≠ [] → ([5, 6] : Word) <:+: wire F1w) :=
  ⟨by decide,
   (claim_C1_payload_subrange F1w [5, 6] (some 42) [IPPROTO_UDP] D1w
     (by decide)).2.1⟩

/-- Claim C2 counterexample: on the concrete frame F2x (protocol 41 over
IPv4, inner IPv6 header declaring UDP next), get_payload increments the
IPv6-in-IPv4 counter but does not decode the inner protocol: the UDP
counter stays 0 and the payload is sliced right after the IPv6 header
(12 bytes: the 8-byte UDP header plus the 4 data bytes), contradicting
the claim that the inner protocol is itself decoded and counted before
the payload is sliced. -/
theorem claim_C2_counterexample :
    (get_payload F2x).map
        (fun p => (p.2.ip6_in_ip4_packets, p.2.udp_packets, p.1.length))
      = some (1, 0, 12) := by decide

/-- Claim C2 (amended): when the transport loop reaches protocol 41
(IPv6-in-IPv4), it counts the layer, advances by the IPv6 header length
(40 bytes), and exits the loop without decoding the inner next-header
protocol; the payload is sliced immediately after the IPv6 header. -/
theorem claim_C2_amended (d : List Nat) (off : Nat) (flag : Bool) :
    l4loop d off IPPROTO_IPV6 flag = ipv6HopResult off := by
  show l4loopF (d.length + 2 + 1) d off IPPROTO_IPV6 flag = _
  refine l4loopF_succ_elim (d.length + 2) d off IPPROTO_IPV6 flag
    (fun r => r = ipv6HopResult off) ?_ ?_ ?_ ?_ ?_ ?_ ?_ ?_ ?_ ?_ ?_ ?_
  · exact fun h => absurd h (by decide)
  · exact fun h => absurd h (by decide)
  · exact fun h _ => absurd h (by decide)
  · exact fun h _ => absurd h (by decide)
  · exact fun h => absurd h (by decide)
  · exact fun h => absurd h (by decide)
  · exact fun h => absurd h (by decide)
  · exact fun h => absurd h (by decide)
  · exact fun h => absurd h (by decide)
  · exact fun _ => rfl
  · exact fun h => absurd h (by decide)
  · exact fun _ _ _ _ _ _ _ _ h _ => absurd rfl h

/-- Claim C3: after any run prefix, the IPv4, IPv6 and other-L3 counters
sum to the total-frame counter: every processed frame increments exactly
one of the three. -/
theorem claim_C3_l3_partition (a1 a2 : Word → Bool) (fs : List Frame)
    (s' : SamplerState) (h : runFrames a1 a2 fs initState = some s') :
    s'.cs.ipv4_packets + s'.cs.ipv6_packets + s'.cs.other_l3_packets
      = s'.cs.total_packets := by
  obtain ⟨r1, r2, -, -, -, -, -⟩ := run_spec a1 a2 fs initState s' h
  simp only [initState] at r1 r2
  omega

/-- Claim C3 witness: a run over one unrecognized-ethertype frame. -/
theorem claim_C3_witness :
    runFrames (fun _ => false) (fun _ => false) [F3w] initState = some s3w ∧
    s3w.cs.ipv4_packets + s3w.cs.ipv6_packets + s3w.cs.other_l3_packets
      = s3w.cs.total_packets := by
  have h1 : runFrames (fun _ => false) (fun _ => false) [F3w] initState
      = some s3w := by
    rw [runFrames_one _ _ F3w initState _
      (packetHandler_eval _ _ F3w initState [] { other_l3_packets := 1 }
        rfl (by decide) (by decide))]
    rfl
  exact ⟨h1, claim_C3_l3_partition (fun _ => false) (fun _ => false) [F3w]
    s3w h1⟩

theorem finishLoop_abort_chain (f : Frame) (d : List Nat) (off proto : Nat)
    (dc0 : Counters) :
    ((finishLoop f (l4loop d off proto false) dc0).isAbort = true ↔
      2 ≤ (finishLoop f (l4loop d off proto false) dc0).chainOf.count
        IPPROTO_IPIP) := by
  have hcls := (l4loop_class d off proto false).1
  have habort := l4loop_abort_count d off proto false
  simp only [Bool.false_eq_true, if_false, Nat.zero_add] at habort
  unfold finishLoop
  cases ho : (l4loop d off proto false).outcome with
  | fuelOut => exact absurd ho hcls
  | abort =>
    simp only [DemuxRes.isAbort, DemuxRes.chainOf]
    exact ⟨fun _ => habort.mp ho, fun _ => trivial⟩
  | noPayload =>
    simp only [DemuxRes.isAbort, DemuxRes.chainOf]
    constructor
    · intro hc; exact Bool.noConfusion hc
    · intro hc
      have : (l4loop d off proto false).outcome = .abort := habort.mpr hc
      rw [ho] at this
      exact LoopOutcome.noConfusion this
  | payloadAt o =>
    simp only [DemuxRes.isAbort, DemuxRes.chainOf]
    constructor
    · intro hc; exact Bool.noConfusion hc
    · intro hc
      have : (l4loop d off proto false).outcome = .abort := habort.mpr hc
      rw [ho] at this
      exact LoopOutcome.noConfusion this

theorem demux_chain_abort (f : Frame) :
    ((demux f).isAbort = true ↔
      2 ≤ (demux f).chainOf.count IPPROTO_IPIP) := by
  unfold demux demuxL3
  split_ifs
  · exact finishLoop_abort_chain f f.data (18 + 20) (byteAt f.data (18 + 9)) _
  · exact finishLoop_abort_chain f f.data (18 + 40) (byteAt f.data (18 + 6)) _
  · simp [DemuxRes.isAbort, DemuxRes.chainOf]
  · exact finishLoop_abort_chain f f.data (14 + 20) (byteAt f.data (14 + 9)) _
  · exact finishLoop_abort_chain f f.data (14 + 40) (byteAt f.data (14 + 6)) _
  · simp [DemuxRes.isAbort, DemuxRes.chainOf]

/-- Claim C4: get_payload aborts the process (the assert at line 246,
modelled as none) exactly when the transport loop dispatches on the
IP-in-IP protocol a second time, i.e. exactly when the ghost protocol
chain contains protocol 4 at least twice; a single level of
IPv4-in-IPv4 tunneling never aborts. -/
theorem claim_C4_nested_ipip_abort (f : Frame) :
    get_payload f = none ↔
      2 ≤ (demux f).chainOf.count IPPROTO_IPIP := by
  have h1 : (get_payload f = none) ↔ (demux f).isAbort = true := by
    unfold get_payload
    cases demux f <;> simp [DemuxRes.isAbort]
  rw [h1]
  exact demux_chain_abort f

/-- Claim C5: for every completed run, total frames = payloaded frames
plus empty-payload frames, and the empty-payload frames are exactly
accounted for by the other-L3, other-L4, GRE and PIM counters plus the
truncated frames (declared length not exceeding the computed header
offset). -/
theorem claim_C5_accounting (a1 a2 : Word → Bool) (fs : List Frame)
    (s' : SamplerState) (h : runFrames a1 a2 fs initState = some s') :
    s'.cs.total_packets
      = s'.cs.payloaded_packets + (fs.filter emptyPayload).length ∧
    (fs.filter emptyPayload).length
      = s'.cs.other_l3_packets + s'.cs.other_l4_packets +
        s'.cs.gre_packets + s'.cs.pim_packets +
        (fs.filter truncatedFrame).length := by
  obtain ⟨r1, -, r3, r4, -, -, -⟩ := run_spec a1 a2 fs initState s' h
  simp only [initState] at r1 r3 r4
  constructor <;> omega

/-- Claim C5 witness: a run over one IPv4/GRE frame (no payload). -/
theorem claim_C5_witness :
    runFrames (fun _ => false) (fun _ => false) [F5w] initState = some s5w ∧
    s5w.cs.total_packets
      = s5w.cs.payloaded_packets + ([F5w].filter emptyPayload).length ∧
    ([F5w].filter emptyPayload).length
      = s5w.cs.other_l3_packets + s5w.cs.other_l4_packets +
        s5w.cs.gre_packets + s5w.cs.pim_packets +
        ([F5w].filter truncatedFrame).length := by
  have h1 : runFrames (fun _ => false) (fun _ => false) [F5w] initState
      = some s5w := by
    rw [runFrames_one _ _ F5w initState _
      (packetHandler_eval _ _ F5w initState []
        { ipv4_packets := 1, gre_packets := 1 } rfl (by decide) (by decide))]
    rfl
  obtain ⟨c1, c2⟩ := claim_C5_accounting (fun _ => false) (fun _ => false)
    [F5w] s5w h1
  exact ⟨h1, c1, c2⟩

/-- Claim C6 (Scenario E): on the concrete untagged IPv4-in-IPv4 frame F6
with inner UDP, get_payload counts IP-in-IP once and UDP once, and the
payload starts exactly past the Ethernet header, both 20-byte IPv4
headers and the 8-byte UDP header (offset 62), extending to the declared
frame length 66; a one-frame run shows the same counters. -/
theorem claim_C6_ipip_udp_scenario :
    (get_payload F6).map
        (fun p => (p.1, p.2.ipip_packets, p.2.udp_packets))
      = some (mkPayload F6 (14 + 20 + 20 + 8), 1, 1) ∧
    mkPayload F6 (14 + 20 + 20 + 8) = [1, 2, 3, 4] ∧
    14 + 20 + 20 + 8 + (mkPayload F6 (14 + 20 + 20 + 8)).length = F6.len ∧
    runFrames (fun _ => true) (fun _ => true) [F6] initState = some s6w ∧
    s6w.cs.ipip_packets = 1 ∧ s6w.cs.udp_packets = 1 := by
  refine ⟨by decide, by decide, by decide, ?_, rfl, rfl⟩
  rw [runFrames_one _ _ F6 initState _
    (packetHandler_eval _ _ F6 initState [1, 2, 3, 4] C6delta
      rfl (by decide) (by decide))]
  rfl

/-- Claim C7: swapping the two acceptors and re-running yields the same
disagreement count and the same per-frame disagreement outcome, while
the accepted-by-1 and accepted-by-2 counters exchange their values. -/
theorem claim_C7_swap_symmetry (a1 a2 : Word → Bool) (fs : List Frame)
    (s1 s2 : SamplerState)
    (h1 : runFrames a1 a2 fs initState = some s1)
    (h2 : runFrames a2 a1 fs initState = some s2) :
    s2.cs.incons_packets = s1.cs.incons_packets ∧
    s2.cs.accepted_aut1 = s1.cs.accepted_aut2 ∧
    s2.cs.accepted_aut2 = s1.cs.accepted_aut1 ∧
    (∀ f, disagrees a2 a1 f = disagrees a1 a2 f) := by
  obtain ⟨-, -, -, -, p5, p6, p7⟩ := run_spec a1 a2 fs initState s1 h1
  obtain ⟨-, -, -, -, q5, q6, q7⟩ := run_spec a2 a1 fs initState s2 h2
  have hfilt : fs.filter (disagrees a2 a1) = fs.filter (disagrees a1 a2) :=
    List.filter_congr (fun f _ => disagrees_symm a1 a2 f)
  rw [hfilt] at q7
  simp only [initState] at p5 p6 p7 q5 q6 q7
  exact ⟨by omega, by omega, by omega, disagrees_symm a1 a2⟩

/-- Claim C7 witness: a one-frame capture with one always-accepting and
one always-rejecting acceptor, run both ways. -/
theorem claim_C7_witness :
    runFrames (fun _ => true) (fun _ => false) [F7w] initState = some s7a ∧
    runFrames (fun _ => false) (fun _ => true) [F7w] initState = some s7b ∧
    s7b.cs.incons_packets = s7a.cs.incons_packets ∧
    s7b.cs.accepted_aut1 = s7a.cs.accepted_aut2 ∧
    s7b.cs.accepted_aut2 = s7a.cs.accepted_aut1 := by
  have h1 : runFrames (fun _ => true) (fun _ => false) [F7w] initState
      = some s7a := by
    rw [runFrames_one _ _ F7w initState _
      (packetHandler_eval _ _ F7w initState [5, 6]
        { ipv4_packets := 1, udp_packets := 1 } rfl (by decide) (by decide))]
    rfl
  have h2 : runFrames (fun _ => false) (fun _ => true) [F7w] initState
      = some s7b := by
    rw [runFrames_one _ _ F7w initState _
      (packetHandler_eval _ _ F7w initState [5, 6]
        { ipv4_packets := 1, udp_packets := 1 } rfl (by decide) (by decide))]
    rfl
  obtain ⟨c1, c2, c3, -⟩ := claim_C7_swap_symmetry (fun _ => true)
    (fun _ => false) [F7w] s7a s7b h1 h2
  exact ⟨h1, h2, c1, c2, c3⟩

/-- Claim C8 counterexample: on the 1000th frame of a run (a multiple of
the tick interval), when the frame yields an empty payload the handler
returns before the tick: no tick is emitted, contradicting the claim
that the tick fires regardless of whether the frame produced a
payload. -/
theorem claim_C8_counterexample :
    packetHandler (fun _ => true) (fun _ => true) F8x s999 = some s1000x ∧
    s1000x.cs.total_packets % 1000 = 0 ∧
    s1000x.ticks = s999.ticks := by
  refine ⟨?_, by decide, rfl⟩
  rw [packetHandler_eval _ _ F8x s999 [] { other_l3_packets := 1 }
    rfl (by decide) (by decide)]
  rfl

/-- Claim C8 (amended): the per-frame handler emits at most one progress
tick per frame, and it emits one exactly when the frame produced a
non-empty payload and the total-frame count after the increment is a
multiple of 1000; a frame with an empty payload never ticks because the
handler returns before the tick check. -/
theorem claim_C8_amended (a1 a2 : Word → Bool) (f : Frame)
    (s s' : SamplerState) (h : packetHandler a1 a2 f s = some s') :
    (s'.ticks = s.ticks ∨ s'.ticks = s.ticks + 1) ∧
    (s'.ticks = s.ticks + 1 ↔
      (emptyPayload f = false ∧ s'.cs.total_packets % 1000 = 0)) := by
  obtain ⟨pl, w, dOff, ch, dc, hh, hd, hcore⟩ :=
    packetHandler_some a1 a2 f s s' h
  obtain ⟨-, -, -, -, -, -, -, -, -, -, -, -, k13, k14⟩ :=
    handlerCore_spec a1 a2 s pl w dc s' hcore.symm
  have hE : emptyPayload f = w.isEmpty := emptyPayload_eq f w dOff ch dc hd
  rw [hE]
  exact ⟨k13, k14⟩

/-- Claim C8 witness: the 1000th frame carrying a payload does tick. -/
theorem claim_C8_witness :
    packetHandler (fun _ => false) (fun _ => false) F8w s999w = some s1000w ∧
    (s1000w.ticks = s999w.ticks ∨ s1000w.ticks = s999w.ticks + 1) ∧
    (s1000w.ticks = s999w.ticks + 1 ↔
      (emptyPayload F8w = false ∧ s1000w.cs.total_packets % 1000 = 0)) := by
  have h1 : packetHandler (fun _ => false) (fun _ => false) F8w s999w
      = some s1000w := by
    rw [packetHandler_eval _ _ F8w s999w [5, 6]
      { ipv4_packets := 1, udp_packets := 1 } rfl (by decide) (by decide)]
    rfl
  obtain ⟨c1, c2⟩ := claim_C8_amended (fun _ => false) (fun _ => false)
    F8w s999w s1000w h1
  exact ⟨h1, c1, c2⟩

/-- Claim C9: main exits with a failure code on a usage error (argument
count different from 4) and on a load or open error, both different from
the success exit code, and in those cases no report is produced; when
everything succeeds it exits with the success code and prints the
report. -/
theorem claim_C9_exit_codes :
    (∀ argc l1 l2 o lp, argc ≠ 4 →
      mainModel argc l1 l2 o lp = (EXIT_FAILURE, false)) ∧
    (∀ l1 l2 o lp, ((l1 && l2) = false ∨ o = false) →
      mainModel 4 l1 l2 o lp = (EXIT_FAILURE, false)) ∧
    EXIT_FAILURE ≠ EXIT_SUCCESS ∧
    mainModel 4 true true true true = (EXIT_SUCCESS, true) := by
  refine ⟨?_, ?_, by decide, by decide⟩
  · intro argc l1 l2 o lp ha
    unfold mainModel
    rw [if_pos ha]
  · intro l1 l2 o lp hc
    rcases hc with hc | hc
    · simp [mainModel, hc]
    · cases hl : (l1 && l2)
      · simp [mainModel, hl]
      · simp [mainModel, hl, hc]

/-- Claim C9 witness: concrete failing and succeeding invocations. -/
theorem claim_C9_witness :
    mainModel 3 true true true true = (EXIT_FAILURE, false) ∧
    mainModel 4 false true true true = (EXIT_FAILURE, false) ∧
    mainModel 4 true true false true = (EXIT_FAILURE, false) :=
  ⟨claim_C9_exit_codes.1 3 true true true true (by decide),
   claim_C9_exit_codes.2.1 false true true true (Or.inl (by decide)),
   claim_C9_exit_codes.2.1 true true false true (Or.inr rfl)⟩

/-- Claim C10: the handler increments the 2048-cell packet-length
histogram at index pkthdr->len with no bounds check: for a state whose
histogram has the declared 2048 cells, the write is in bounds exactly
when the frame's declared length is below 2048, and a frame whose
declared length is 2048 or more makes the handler hit undefined
behaviour (modelled as none). -/
theorem claim_C10_hist_bounds (a1 a2 : Word → Bool) (f : Frame)
    (s : SamplerState) (hlen : s.packet_lengths.length = 2048) :
    ((histUpdate s.packet_lengths f.len).isSome = true ↔ f.len < 2048) ∧
    (2048 ≤ f.len → packetHandler a1 a2 f s = none) := by
  constructor
  · unfold histUpdate
    rw [hlen]
    by_cases hlt : f.len < 2048
    · rw [if_pos hlt]; simp [hlt]
    · rw [if_neg hlt]; simp [hlt]
  · intro hge
    unfold packetHandler histUpdate
    rw [hlen, if_neg (by omega)]
    rfl

/-- Claim C10 witness: a frame of declared length 2048 aborts the
handler from the startup state. -/
theorem claim_C10_witness :
    initState.packet_lengths.length = 2048 ∧
    packetHandler (fun _ => true) (fun _ => true) F10x initState = none := by
  have hl : initState.packet_lengths.length = 2048 := by
    rw [show initState.packet_lengths = List.replicate 2048 0 from rfl,
      List.length_replicate]
  exact ⟨hl, (claim_C10_hist_bounds (fun _ => true) (fun _ => true) F10x
    initState hl).2 (by decide)⟩
